import Mathlib

/-!
Shallow embedding of the WGAN training notebook (`WGAN.ipynb`).

The tensor/autodiff backend (Keras) is an external collaborator: gradient
deltas, reported losses, the generator's forward pass and the entropy feeding
`numpy.random` are supplied by an oracle (`Backend`).  Everything the notebook
itself computes — the Wasserstein loss, the clip constraint, layer
construction, the trainable-flag bookkeeping of `define_wgan`, batch
assembly, and the orchestrating `train` loop with its loss histories and
checkpoint cadence — is translated directly from the source.
-/

namespace WGAN

/-- An image tensor: rows × columns × channels, values in ℚ. -/
abbrev Image := List (List (List ℚ))

/-- `numpy.mean` over a flat vector (empty vector gives `0/0 = 0` in ℚ). -/
def mean (l : List ℚ) : ℚ := l.sum / l.length

/-- `wasserstein_loss(y_true, y_pred) = backend.mean(y_true * y_pred)`:
elementwise product followed by the mean. -/
def wasserstein_loss (y_true y_pred : List ℚ) : ℚ :=
  mean (List.zipWith (fun a b => a * b) y_true y_pred)

/-- `ClipConstraint`: stores the clip value set at initialization. -/
structure ClipConstraint where
  clip_value : ℚ
  deriving DecidableEq

/-- `ClipConstraint.__call__(weights) = backend.clip(weights, -c, c)`:
elementwise clamp of every weight into `[-c, c]`. -/
def ClipConstraint.call (c : ClipConstraint) (weights : List ℚ) : List ℚ :=
  weights.map (fun w => min (max w (-c.clip_value)) c.clip_value)

/-- Kinds of Keras layers used by the two networks. -/
inductive LayerKind where
  | conv2D
  | conv2DTranspose
  | batchNorm
  | leakyReLU
  | flatten
  | reshape
  | dense
  deriving DecidableEq

/-- A layer: its kind, its parameter tensors (kernel and bias, flattened),
the optional kernel constraint (the clip value, when one was attached at
construction) and the live `trainable` flag. -/
structure Layer where
  kind : LayerKind
  kernel : List ℚ
  bias : List ℚ
  kernelConstraint : Option ℚ
  trainable : Bool
  deriving DecidableEq

/-- `Conv2D(64, (4,4), ..., kernel_constraint=const)` of the critic:
carries the clip constraint with value `0.005`. -/
def mkConvC (init : List ℚ × List ℚ) : Layer :=
  ⟨.conv2D, init.1, init.2, some (5/1000), true⟩

/-- `BatchNormalization()`: gamma as kernel slot, beta as bias slot. -/
def mkBN (init : List ℚ × List ℚ) : Layer :=
  ⟨.batchNorm, init.1, init.2, none, true⟩

/-- `LeakyReLU(alpha=0.2)`: no parameters. -/
def mkLReLU : Layer := ⟨.leakyReLU, [], [], none, true⟩

/-- `Flatten()`: no parameters. -/
def mkFlatten : Layer := ⟨.flatten, [], [], none, true⟩

/-- `Reshape((5,5,128))`: no parameters. -/
def mkReshape : Layer := ⟨.reshape, [], [], none, true⟩

/-- `Dense(...)`: no kernel constraint attached. -/
def mkDense (init : List ℚ × List ℚ) : Layer :=
  ⟨.dense, init.1, init.2, none, true⟩

/-- `Conv2DTranspose(128, (4,4), ...)` of the generator: unconstrained. -/
def mkConvT (init : List ℚ × List ℚ) : Layer :=
  ⟨.conv2DTranspose, init.1, init.2, none, true⟩

/-- The generator's output `Conv2D(1, (5,5), activation='tanh')`:
unconstrained. -/
def mkConvOut (init : List ℚ × List ℚ) : Layer :=
  ⟨.conv2D, init.1, init.2, none, true⟩

/-- `define_critic`: four `Conv2D` downsampling stages (each carrying the
`ClipConstraint(0.005)` kernel constraint), each followed by
`BatchNormalization` and `LeakyReLU`, then `Flatten` and `Dense(1)` (no
constraint).  `model.compile(...)` captures the trainable flags of all
layers at this moment; `init` supplies the randomly initialized parameter
tensors of the parameterized layers in order. -/
def define_critic (init : Nat → List ℚ × List ℚ) : List Layer × List Bool :=
  let layers : List Layer :=
    [mkConvC (init 0), mkBN (init 1), mkLReLU,
     mkConvC (init 2), mkBN (init 3), mkLReLU,
     mkConvC (init 4), mkBN (init 5), mkLReLU,
     mkConvC (init 6), mkBN (init 7), mkLReLU,
     mkFlatten, mkDense (init 8)]
  (layers, layers.map (fun l => l.trainable))

/-- `define_generator`: `Dense`, `LeakyReLU`, `Reshape`, four
(`Conv2DTranspose`, `BatchNormalization`, `LeakyReLU`) upsampling stages,
and the final `tanh` `Conv2D`.  No layer carries a weight constraint. -/
def define_generator (init : Nat → List ℚ × List ℚ) : List Layer :=
  [mkDense (init 0), mkLReLU, mkReshape,
   mkConvT (init 1), mkBN (init 2), mkLReLU,
   mkConvT (init 3), mkBN (init 4), mkLReLU,
   mkConvT (init 5), mkBN (init 6), mkLReLU,
   mkConvT (init 7), mkBN (init 8), mkLReLU,
   mkConvOut (init 9)]

/-- The shared mutable training state: the generator's and the critic's layer
storage (referenced, not copied, by all three Keras models) together with the
trainable-flag snapshots each `compile` call captured.  `criticSnapshot` was
taken inside `define_critic`; `ganSnapshotG`/`ganSnapshotC` inside
`define_wgan`. -/
structure GanSystem where
  gLayers : List Layer
  cLayers : List Layer
  criticSnapshot : List Bool
  ganSnapshotG : List Bool
  ganSnapshotC : List Bool
  deriving DecidableEq

/-- `define_wgan(generator, critic)`: sets `layer.trainable = False` on every
critic layer that is not a `BatchNormalization` instance (mutating the shared
critic layer storage), then compiles the composite, capturing the trainable
flags of the generator's and the (just mutated) critic's layers. -/
def define_wgan (gLayers cLayers : List Layer) (cSnap : List Bool) : GanSystem :=
  let cLayers' := cLayers.map
    (fun l => if l.kind = .batchNorm then l else { l with trainable := false })
  { gLayers := gLayers
    cLayers := cLayers'
    criticSnapshot := cSnap
    ganSnapshotG := gLayers.map (fun l => l.trainable)
    ganSnapshotC := cLayers'.map (fun l => l.trainable) }

/-- The notebook's construction cell: `critic = define_critic()`,
`generator = define_generator(latent_dim)`,
`wgan_model = define_wgan(generator, critic)`. -/
def buildSystem (cInit gInit : Nat → List ℚ × List ℚ) : GanSystem :=
  let c := define_critic cInit
  let g := define_generator gInit
  define_wgan g c.1 c.2

/-- The backend-computed parameter update for one layer: the additive deltas
the optimizer would apply to the kernel and the bias. -/
structure LayerDelta where
  dKernel : List ℚ
  dBias : List ℚ
  deriving DecidableEq

/-- Keras applies a layer's kernel constraint to the kernel right after the
optimizer update; unconstrained tensors pass through unchanged. -/
def applyConstraint : Option ℚ → List ℚ → List ℚ
  | none, k => k
  | some c, k => ClipConstraint.call ⟨c⟩ k

/-- One optimizer update of one layer: add the deltas, then apply the kernel
constraint to the kernel. -/
def updateLayer (l : Layer) (d : LayerDelta) : Layer :=
  { l with
    kernel := applyConstraint l.kernelConstraint (List.zipWith (fun a b => a + b) l.kernel d.dKernel)
    bias := List.zipWith (fun a b => a + b) l.bias d.dBias }

/-- Apply backend deltas to the layers a compiled model treats as trainable:
layer `i` is updated exactly when the compile-time snapshot flag `i` is
`true`. -/
def updateTrainable (snap : List Bool) (d : Nat → LayerDelta) : Nat → List Layer → List Layer
  | _, [] => []
  | i, l :: ls =>
    (if snap.getD i false then updateLayer l (d i) else l) :: updateTrainable snap d (i + 1) ls

/-- `c_model.train_on_batch(...)`: one critic optimizer update, driven by the
snapshot captured when the critic was compiled (inside `define_critic`),
followed — per layer — by the attached kernel constraint. -/
def c_train_on_batch (sys : GanSystem) (d : Nat → LayerDelta) : GanSystem :=
  { sys with cLayers := updateTrainable sys.criticSnapshot d 0 sys.cLayers }

/-- `gan_model.train_on_batch(...)`: one composite-model optimizer update,
driven by the snapshots captured when `define_wgan` compiled the composite:
generator layers per `ganSnapshotG`, critic layers per `ganSnapshotC`. -/
def gan_train_on_batch (sys : GanSystem) (dg dc : Nat → LayerDelta) : GanSystem :=
  { sys with
    gLayers := updateTrainable sys.ganSnapshotG dg 0 sys.gLayers
    cLayers := updateTrainable sys.ganSnapshotC dc 0 sys.cLayers }

/-- `numpy.random.randint(0, hi, n)`: `n` draws from `[0, hi)`, modelled from
an arbitrary entropy source. -/
def randint (hi n : Nat) (src : Nat → Nat) : List Nat :=
  (List.range n).map (fun k => src k % hi)

/-- `generate_real_samples(dataset, n_samples)`: gather the images at `n`
random indices and label them all `-1` (shape `(n, 1)`). -/
def generate_real_samples (dataset : List Image) (n_samples : Nat) (src : Nat → Nat) :
    List Image × List (List ℚ) :=
  let ix := randint dataset.length n_samples src
  (ix.map (fun i => dataset.getD i []), List.replicate n_samples [(-1 : ℚ)])

/-- `generate_latent_points(latent_dim, n_samples)`:
`randn(latent_dim * n_samples).reshape(n_samples, latent_dim)`. -/
def generate_latent_points (latent_dim n_samples : Nat) (src : Nat → ℚ) : List (List ℚ) :=
  (List.range n_samples).map
    (fun r => (List.range latent_dim).map (fun c => src (r * latent_dim + c)))

/-- `generate_fake_samples(generator, latent_dim, n_samples)`: feed `n` latent
points through the generator's forward pass and label the outputs all `+1`
(shape `(n, 1)`). -/
def generate_fake_samples (predict : List ℚ → Image) (latent_dim n_samples : Nat)
    (src : Nat → ℚ) : List Image × List (List ℚ) :=
  let x_input := generate_latent_points latent_dim n_samples src
  (x_input.map predict, List.replicate n_samples [(1 : ℚ)])

/-- The external tensor/autodiff backend and randomness oracle: entropy
sources for every `numpy.random` call, the optimizer's per-layer deltas and
reported losses for every `train_on_batch` call, the generator's forward
pass, and whether the checkpoint sink (pyplot/`model.save`) succeeds at a
given step. -/
structure Backend where
  realSrc : Nat → Nat → Nat → Nat
  latentSrc : Nat → Nat → Nat → ℚ
  ganSrc : Nat → Nat → ℚ
  ckptSrc : Nat → Nat → ℚ
  cRealDelta : Nat → Nat → Nat → LayerDelta
  cRealLoss : Nat → Nat → ℚ
  cFakeDelta : Nat → Nat → Nat → LayerDelta
  cFakeLoss : Nat → Nat → ℚ
  ganDeltaG : Nat → Nat → LayerDelta
  ganDeltaC : Nat → Nat → LayerDelta
  ganLoss : Nat → ℚ
  predict : List Layer → List ℚ → Image
  sinkOk : Nat → Bool

/-- Configuration of the `train` entry point. -/
structure Config where
  dataset : List Image
  latent_dim : Nat
  n_epochs : Nat
  n_batch : Nat
  n_critic : Nat

/-- Observable actions of one run of the training loop: a critic update on a
real batch of the given size, a critic update on a fake batch, a composite
(generator) update with its label batch, and a fired checkpoint. -/
inductive Event where
  | creal (n : Nat)
  | cfake (n : Nat)
  | gupd (n : Nat) (labels : List (List ℚ))
  | chkpt (step : Nat)
  deriving DecidableEq

/-- State threaded through the training loop: the shared model storage, the
three loss histories, the event trace, and (ghost) the critic's layer list
as recorded immediately after each critic optimizer sub-step. -/
structure TrainState where
  sys : GanSystem
  c1_hist : List ℚ
  c2_hist : List ℚ
  g_hist : List ℚ
  events : List Event
  subWorlds : List (List Layer)
  deriving DecidableEq

/-- One iteration of the critic's inner `for _ in range(n_critic)` loop:
sample a real half-batch, update the critic on it, record the loss; sample a
fake half-batch from the current generator, update the critic on it, record
the loss. -/
def criticIter (cfg : Config) (B : Backend) (i j : Nat)
    (acc : TrainState × List ℚ × List ℚ) : TrainState × List ℚ × List ℚ :=
  let st := acc.1
  let half_batch := cfg.n_batch / 2
  let real := generate_real_samples cfg.dataset half_batch (B.realSrc i j)
  let sys1 := c_train_on_batch st.sys (B.cRealDelta i j)
  let c_loss1 := B.cRealLoss i j
  let st1 := { st with
    sys := sys1
    events := st.events ++ [Event.creal real.1.length]
    subWorlds := st.subWorlds ++ [sys1.cLayers] }
  let fake := generate_fake_samples (B.predict sys1.gLayers) cfg.latent_dim half_batch
    (B.latentSrc i j)
  let sys2 := c_train_on_batch st1.sys (B.cFakeDelta i j)
  let c_loss2 := B.cFakeLoss i j
  let st2 := { st1 with
    sys := sys2
    events := st1.events ++ [Event.cfake fake.1.length]
    subWorlds := st1.subWorlds ++ [sys2.cLayers] }
  (st2, acc.2.1 ++ [c_loss1], acc.2.2 ++ [c_loss2])

/-- The critic phase of one training step: `n_critic` iterations of
`criticIter`, accumulating the temporary loss lists `c1_tmp`, `c2_tmp`. -/
def criticPhase (cfg : Config) (B : Backend) (i : Nat) (st : TrainState) :
    TrainState × List ℚ × List ℚ :=
  (List.range cfg.n_critic).foldl (fun acc j => criticIter cfg B i j acc) (st, [], [])

/-- A failure of the checkpoint sink, carrying the step index at which it
occurred; the source has no handler for it. -/
structure CheckpointFailure where
  step : Nat
  deriving DecidableEq

/-- `summarize_performance(step, g_model, latent_dim, n_samples=100)`:
generate 100 fake samples, rescale them from `[-1,1]` to `[0,1]`, then hand
the plot and the model snapshot to the sink — which may fail; the failure
propagates (no `try`/`except` in the source). -/
def summarize_performance (B : Backend) (step : Nat) (gLayers : List Layer)
    (latent_dim : Nat) : Except CheckpointFailure (List Image) :=
  let fake := generate_fake_samples (B.predict gLayers) latent_dim 100 (B.ckptSrc step)
  let X := fake.1.map (fun img => img.map (fun row => row.map
    (fun px => px.map (fun v => (v + 1) / 2))))
  if B.sinkOk step then .ok X else .error ⟨step⟩

/-- One iteration of `train`'s outer loop at step `i`: the critic phase, the
two averaged critic-loss appends, one composite update on a latent batch of
size `n_batch` labelled all `-1`, the generator-loss append, and — on an
epoch boundary — the checkpoint. -/
def trainStep (cfg : Config) (B : Backend) (i : Nat) (st : TrainState) :
    Except CheckpointFailure TrainState :=
  let bat_per_epo := cfg.dataset.length / cfg.n_batch
  let phase := criticPhase cfg B i st
  let st1 := phase.1
  let st2 := { st1 with
    c1_hist := st1.c1_hist ++ [mean phase.2.1]
    c2_hist := st1.c2_hist ++ [mean phase.2.2] }
  let X_gan := generate_latent_points cfg.latent_dim cfg.n_batch (B.ganSrc i)
  let y_gan := List.replicate cfg.n_batch [(-1 : ℚ)]
  let sys3 := gan_train_on_batch st2.sys (B.ganDeltaG i) (B.ganDeltaC i)
  let st3 := { st2 with
    sys := sys3
    g_hist := st2.g_hist ++ [B.ganLoss i]
    events := st2.events ++ [.gupd X_gan.length y_gan] }
  if (i + 1) % bat_per_epo == 0 then
    match summarize_performance B i st3.sys.gLayers cfg.latent_dim with
    | .ok _ => .ok { st3 with events := st3.events ++ [.chkpt i] }
    | .error e => .error e
  else .ok st3

/-- The outer loop of `train`, running `fuel` steps starting from step index
`i`; an uncaught checkpoint failure terminates the run. -/
def trainLoop (cfg : Config) (B : Backend) : Nat → Nat → TrainState →
    Except CheckpointFailure TrainState
  | 0, _, st => .ok st
  | fuel + 1, i, st =>
    match trainStep cfg B i st with
    | .ok st1 => trainLoop cfg B fuel (i + 1) st1
    | .error e => .error e

/-- The loop's initial state: empty histories and traces. -/
def initState (sys : GanSystem) : TrainState := ⟨sys, [], [], [], [], []⟩

/-- `train(g_model, c_model, gan_model, dataset, latent_dim, ...)`:
`bat_per_epo = N / n_batch` (integer division), `n_steps = bat_per_epo *
n_epochs`, then the outer loop. -/
def train (cfg : Config) (B : Backend) (sys : GanSystem) :
    Except CheckpointFailure TrainState :=
  let bat_per_epo := cfg.dataset.length / cfg.n_batch
  let n_steps := bat_per_epo * cfg.n_epochs
  trainLoop cfg B n_steps 0 (initState sys)

/-- The checkpoint steps recorded in an event trace, in order. -/
def chkpts (evs : List Event) : List Nat :=
  evs.filterMap (fun e => match e with | .chkpt i => some i | _ => none)

/-- The critic-layer snapshots recorded after each critic sub-step of a run
(empty for a failed run, whose state is discarded by the propagation). -/
def runSubWorlds : Except CheckpointFailure TrainState → List (List Layer)
  | .ok st => st.subWorlds
  | .error _ => []

/-! ### Concrete instances used for witnesses and counterexamples -/

/-- A 1×1×1 zero image. -/
def img1 : Image := [[[0]]]

/-- An 8×8×1 zero image. -/
def img8 : Image := List.replicate 8 (List.replicate 8 [(0 : ℚ)])

/-- The zero update. -/
def zeroDelta : LayerDelta := ⟨[], []⟩

/-- All-zero initial parameters. -/
def zeroInit : Nat → List ℚ × List ℚ := fun _ => ([], [])

/-- Initial parameters that give the dense layer a one-element kernel and
bias. -/
def cexInit : Nat → List ℚ × List ℚ := fun k => if k = 8 then ([0], [0]) else ([], [])

/-- A trivial backend: zero entropy, zero deltas, zero losses, empty
generator output, checkpoint sink always succeeds. -/
def zeroBackend : Backend :=
  ⟨fun _ _ _ => 0, fun _ _ _ => 0, fun _ _ => 0, fun _ _ => 0,
   fun _ _ _ => zeroDelta, fun _ _ => 0, fun _ _ _ => zeroDelta, fun _ _ => 0,
   fun _ _ => zeroDelta, fun _ _ => zeroDelta, fun _ => 0,
   fun _ _ => [], fun _ => true⟩

/-- A backend whose first critic update adds `1` to the dense layer's
(unconstrained) kernel. -/
def cexBackend : Backend :=
  { zeroBackend with cRealDelta := fun _ _ li => if li = 13 then ⟨[1], []⟩ else zeroDelta }

/-- A backend whose checkpoint sink always fails. -/
def failBackend : Backend := { zeroBackend with sinkOk := fun _ => false }

/-- Two 1×1 images, batch 2, one epoch, one critic sub-step: a single
training step with half-batches of size 1. -/
def cexConfig : Config := ⟨[img1, img1], 1, 1, 2, 1⟩

/-- Five images but batch size 10: dataset smaller than the batch. -/
def cfgSmall : Config := ⟨List.replicate 5 img1, 1, 1, 10, 1⟩

/-- The spec's end-to-end scenario: 100 images of shape 8×8×1,
`latent_dim = 10`, `n_batch = 10`, `n_critic = 2`, `n_epochs = 1`. -/
def cfg100 : Config := ⟨List.replicate 100 img8, 10, 1, 10, 2⟩

/-- Whether a run result is a success. -/
def exceptOk {ε α : Type} : Except ε α → Bool
  | .ok _ => true
  | .error _ => false

/-! ### Lemmas about the clip operation -/

theorem clip_le_right (c x : ℚ) : min (max x (-c)) c ≤ c :=
  min_le_right _ _

theorem neg_le_clip (c x : ℚ) (h : -c ≤ c) : -c ≤ min (max x (-c)) c :=
  le_min (le_max_right _ _) h

theorem clip_eq_of_mem (c x : ℚ) (h1 : -c ≤ x) (h2 : x ≤ c) :
    min (max x (-c)) c = x := by
  rw [max_eq_left h1, min_eq_left h2]

theorem call_bounds (cc : ClipConstraint) (w : List ℚ)
    (h : -cc.clip_value ≤ cc.clip_value) :
    ∀ x ∈ cc.call w, -cc.clip_value ≤ x ∧ x ≤ cc.clip_value := by
  intro x hx
  simp only [ClipConstraint.call, List.mem_map] at hx
  obtain ⟨y, -, rfl⟩ := hx
  exact ⟨neg_le_clip _ _ h, clip_le_right _ _⟩

theorem call_eq_self (cc : ClipConstraint) (w : List ℚ)
    (h : ∀ x ∈ w, -cc.clip_value ≤ x ∧ x ≤ cc.clip_value) :
    cc.call w = w := by
  unfold ClipConstraint.call
  induction w with
  | nil => rfl
  | cons a l ih =>
    have ha := h a (List.mem_cons_self a l)
    simp only [List.map_cons, List.cons.injEq]
    exact ⟨clip_eq_of_mem _ _ ha.1 ha.2, ih (fun x hx => h x (List.mem_cons_of_mem a hx))⟩

/-- C2: for every weight tensor `w` and clip bound `c > 0`, the clip
operation is idempotent — `clip(clip(w)) = clip(w)` — every element of
`clip(w)` lies within `[-c, c]`, and on a `w` already within `[-c, c]`,
`clip(w) = w`. -/
theorem clip_idempotent_bounded_identity (cc : ClipConstraint) (w : List ℚ)
    (hc : 0 < cc.clip_value) :
    cc.call (cc.call w) = cc.call w ∧
    (∀ x ∈ cc.call w, -cc.clip_value ≤ x ∧ x ≤ cc.clip_value) ∧
    ((∀ x ∈ w, -cc.clip_value ≤ x ∧ x ≤ cc.clip_value) → cc.call w = w) := by
  have hcc : -cc.clip_value ≤ cc.clip_value := by linarith
  refine ⟨?_, call_bounds cc w hcc, call_eq_self cc w⟩
  exact call_eq_self cc (cc.call w) (call_bounds cc w hcc)

/-- Witness for C2 at `clip_value = 0.005` and `w = [1, -3/1000]`. -/
theorem clip_idempotent_bounded_identity_witness :
    (0 : ℚ) < (5/1000 : ℚ) ∧
    (ClipConstraint.mk (5/1000)).call ((ClipConstraint.mk (5/1000)).call [1, -3/1000]) =
      (ClipConstraint.mk (5/1000)).call [1, -3/1000] ∧
    (∀ x ∈ (ClipConstraint.mk (5/1000)).call [1, -3/1000],
      -(5/1000 : ℚ) ≤ x ∧ x ≤ (5/1000 : ℚ)) :=
  ⟨by norm_num,
   (clip_idempotent_bounded_identity ⟨5/1000⟩ [1, -3/1000] (by norm_num)).1,
   (clip_idempotent_bounded_identity ⟨5/1000⟩ [1, -3/1000] (by norm_num)).2.1⟩

/-! ### Lemmas about the Wasserstein loss -/

theorem zipWith_mul_replicate_neg_one (l : List ℚ) :
    List.zipWith (fun a b => a * b) (List.replicate l.length (-1)) l =
      l.map (fun x => -x) := by
  induction l with
  | nil => rfl
  | cons a t ih =>
    simp only [List.length_cons, List.replicate_succ, List.zipWith_cons_cons, List.map_cons,
      neg_one_mul, ih]

theorem zipWith_mul_replicate_one (l : List ℚ) :
    List.zipWith (fun a b => a * b) (List.replicate l.length 1) l = l := by
  induction l with
  | nil => rfl
  | cons a t ih =>
    simp only [List.length_cons, List.replicate_succ, List.zipWith_cons_cons, one_mul, ih]

theorem sum_map_neg (l : List ℚ) : (l.map (fun x => -x)).sum = -l.sum := by
  induction l with
  | nil => simp
  | cons a t ih => simp only [List.map_cons, List.sum_cons, ih, neg_add]

theorem mean_map_neg (l : List ℚ) : mean (l.map (fun x => -x)) = -(mean l) := by
  unfold mean
  rw [List.length_map, sum_map_neg, neg_div]

/-- C3: `wasserstein_loss(y_true, y_pred)` equals `mean(y_true * y_pred)`
elementwise; when `y_true` is all `-1` the result is `-mean(y_pred)`, and
when `y_true` is all `+1` it is `mean(y_pred)`. -/
theorem wasserstein_loss_spec (y_true y_pred : List ℚ)
    (h : y_true.length = y_pred.length) :
    wasserstein_loss y_true y_pred =
      mean (List.zipWith (fun a b => a * b) y_true y_pred) ∧
    (y_true = List.replicate y_pred.length (-1) →
      wasserstein_loss y_true y_pred = -(mean y_pred)) ∧
    (y_true = List.replicate y_pred.length 1 →
      wasserstein_loss y_true y_pred = mean y_pred) := by
  refine ⟨rfl, ?_, ?_⟩
  · rintro rfl
    rw [wasserstein_loss, zipWith_mul_replicate_neg_one, mean_map_neg]
  · rintro rfl
    rw [wasserstein_loss, zipWith_mul_replicate_one]

/-- Witness for C3 on `y_pred = [2, 3]`. -/
theorem wasserstein_loss_spec_witness :
    ([(-1 : ℚ), -1].length = [(2 : ℚ), 3].length) ∧
    wasserstein_loss [(-1 : ℚ), -1] [(2 : ℚ), 3] = -(mean [(2 : ℚ), 3]) ∧
    wasserstein_loss [(1 : ℚ), 1] [(2 : ℚ), 3] = mean [(2 : ℚ), 3] :=
  ⟨rfl,
   (wasserstein_loss_spec [(-1 : ℚ), -1] [(2 : ℚ), 3] rfl).2.1 rfl,
   (wasserstein_loss_spec [(1 : ℚ), 1] [(2 : ℚ), 3] rfl).2.2 rfl⟩

/-! ### Lemmas about the sample generators -/

theorem generate_real_samples_length (dataset : List Image) (n : Nat) (src : Nat → Nat) :
    (generate_real_samples dataset n src).1.length = n := by
  simp [generate_real_samples, randint]

theorem generate_fake_samples_length (predict : List ℚ → Image) (L n : Nat) (src : Nat → ℚ) :
    (generate_fake_samples predict L n src).1.length = n := by
  simp [generate_fake_samples, generate_latent_points]

/-- C4: `generate_real_samples(dataset, n)` returns exactly `n` images, each
an element of the dataset (the random indices land in `[0, N)`), labelled by
the `(n, 1)` all-`-1` vector; `generate_fake_samples(generator, L, n)`
returns exactly `n` images, each the generator's output on one of the `n`
sampled latent points, labelled by the `(n, 1)` all-`+1` vector. -/
theorem batch_composition (dataset : List Image) (n : Nat) (src : Nat → Nat)
    (hN : 0 < dataset.length)
    (predict : List ℚ → Image) (L m : Nat) (src2 : Nat → ℚ) :
    (generate_real_samples dataset n src).1.length = n ∧
    (∀ img ∈ (generate_real_samples dataset n src).1, img ∈ dataset) ∧
    (generate_real_samples dataset n src).2 = List.replicate n [(-1 : ℚ)] ∧
    (generate_fake_samples predict L m src2).1.length = m ∧
    (∀ img ∈ (generate_fake_samples predict L m src2).1,
      ∃ z ∈ generate_latent_points L m src2, img = predict z) ∧
    (generate_fake_samples predict L m src2).2 = List.replicate m [(1 : ℚ)] := by
  refine ⟨generate_real_samples_length _ _ _, ?_, rfl,
    generate_fake_samples_length _ _ _ _, ?_, rfl⟩
  · intro img himg
    simp only [generate_real_samples, randint, List.map_map, List.mem_map,
      List.mem_range] at himg
    obtain ⟨k, -, rfl⟩ := himg
    have hlt : src k % dataset.length < dataset.length := Nat.mod_lt _ hN
    simp only [Function.comp_apply]
    rw [List.getD_eq_getElem dataset [] hlt]
    exact List.getElem_mem _
  · intro img himg
    simp only [generate_fake_samples, List.mem_map] at himg
    obtain ⟨z, hz, rfl⟩ := himg
    exact ⟨z, hz, rfl⟩

/-- Witness for C4: a one-image dataset and a trivial generator. -/
theorem batch_composition_witness :
    (0 : Nat) < ([[[[(0 : ℚ)]]]] : List Image).length ∧
    (∀ img ∈ (generate_real_samples [[[[(0 : ℚ)]]]] 2 (fun _ => 0)).1,
      img ∈ ([[[[(0 : ℚ)]]]] : List Image)) ∧
    (generate_real_samples [[[[(0 : ℚ)]]]] 2 (fun _ => 0)).2 =
      List.replicate 2 [(-1 : ℚ)] :=
  ⟨by decide,
   (batch_composition [[[[(0 : ℚ)]]]] 2 (fun _ => 0) (by decide)
     (fun _ => []) 3 2 (fun _ => 0)).2.1,
   (batch_composition [[[[(0 : ℚ)]]]] 2 (fun _ => 0) (by decide)
     (fun _ => []) 3 2 (fun _ => 0)).2.2.1⟩

/-! ### Lemmas about layer updates and trainable-flag snapshots -/

theorem updateLayer_kind (l : Layer) (d : LayerDelta) : (updateLayer l d).kind = l.kind := rfl

theorem updateLayer_kernelConstraint (l : Layer) (d : LayerDelta) :
    (updateLayer l d).kernelConstraint = l.kernelConstraint := rfl

theorem updateLayer_trainable (l : Layer) (d : LayerDelta) :
    (updateLayer l d).trainable = l.trainable := rfl

theorem updateTrainable_length (snap : List Bool) (d : Nat → LayerDelta) :
    ∀ (i0 : Nat) (ls : List Layer), (updateTrainable snap d i0 ls).length = ls.length := by
  intro i0 ls
  induction ls generalizing i0 with
  | nil => rfl
  | cons a t ih => simp [updateTrainable, ih]

theorem updateTrainable_get (snap : List Bool) (d : Nat → LayerDelta) :
    ∀ (ls : List Layer) (i0 k : Nat) (h : k < ls.length)
      (h2 : k < (updateTrainable snap d i0 ls).length),
      (updateTrainable snap d i0 ls).get ⟨k, h2⟩ =
        if snap.getD (i0 + k) false then updateLayer (ls.get ⟨k, h⟩) (d (i0 + k))
        else ls.get ⟨k, h⟩ := by
  intro ls
  induction ls with
  | nil => intro i0 k h; exact absurd h (by simp)
  | cons a t ih =>
    intro i0 k h h2
    cases k with
    | zero => simp [updateTrainable]
    | succ k =>
      have hk : k < t.length := Nat.lt_of_succ_lt_succ h
      have hk2 : k < (updateTrainable snap d (i0 + 1) t).length := by
        rw [updateTrainable_length]; exact hk
      have hstep := ih (i0 + 1) k hk hk2
      simp only [updateTrainable, List.get_cons_succ]
      rw [hstep]
      have harith : i0 + 1 + k = i0 + (k + 1) := by omega
      rw [harith]

theorem mem_updateTrainable (snap : List Bool) (d : Nat → LayerDelta) :
    ∀ (ls : List Layer) (i0 : Nat) (x : Layer), x ∈ updateTrainable snap d i0 ls →
      ∃ l ∈ ls, x.kind = l.kind ∧ x.kernelConstraint = l.kernelConstraint ∧
        x.trainable = l.trainable := by
  intro ls
  induction ls with
  | nil => intro i0 x hx; simp [updateTrainable] at hx
  | cons a t ih =>
    intro i0 x hx
    simp only [updateTrainable, List.mem_cons] at hx
    rcases hx with hx | hx
    · refine ⟨a, List.mem_cons_self a t, ?_⟩
      by_cases hb : snap.getD i0 false = true
      · rw [if_pos hb] at hx
        subst hx
        exact ⟨updateLayer_kind _ _, updateLayer_kernelConstraint _ _, updateLayer_trainable _ _⟩
      · rw [if_neg hb] at hx
        subst hx
        exact ⟨rfl, rfl, rfl⟩
    · obtain ⟨l, hl, hp⟩ := ih (i0 + 1) x hx
      exact ⟨l, List.mem_cons_of_mem a hl, hp⟩

theorem getD_replicate_of_lt {α : Type} (a dflt : α) {n k : Nat} (h : k < n) :
    (List.replicate n a).getD k dflt = a := by
  rw [List.getD_eq_getElem _ _ (by simpa using h)]
  simp

/-! ### Well-formedness of the critic through training -/

/-- Every convolutional layer's kernel lies inside `[-0.005, 0.005]`. -/
def ConvClipped (ls : List Layer) : Prop :=
  ∀ l ∈ ls, l.kind = LayerKind.conv2D →
    ∀ x ∈ l.kernel, -(5/1000 : ℚ) ≤ x ∧ x ≤ (5/1000 : ℚ)

/-- Structural facts preserved throughout training: the critic's own compiled
snapshot regards every layer as trainable, and every `Conv2D` layer of the
critic carries the `ClipConstraint(0.005)` kernel constraint. -/
def CriticWF (sys : GanSystem) : Prop :=
  sys.criticSnapshot = List.replicate sys.cLayers.length true ∧
  ∀ l ∈ sys.cLayers, l.kind = LayerKind.conv2D → l.kernelConstraint = some (5/1000)

theorem criticWF_c_train (sys : GanSystem) (d : Nat → LayerDelta) (h : CriticWF sys) :
    CriticWF (c_train_on_batch sys d) := by
  constructor
  · show sys.criticSnapshot = _
    rw [h.1]
    congr 1
    exact (updateTrainable_length _ _ _ _).symm
  · intro l hl hk
    obtain ⟨l0, hl0, hkind, hcon, -⟩ := mem_updateTrainable _ _ _ _ _ hl
    rw [hcon]
    exact h.2 l0 hl0 (hkind ▸ hk)

theorem criticWF_gan_train (sys : GanSystem) (dg dc : Nat → LayerDelta) (h : CriticWF sys) :
    CriticWF (gan_train_on_batch sys dg dc) := by
  constructor
  · show sys.criticSnapshot = _
    rw [h.1]
    congr 1
    exact (updateTrainable_length _ _ _ _).symm
  · intro l hl hk
    obtain ⟨l0, hl0, hkind, hcon, -⟩ := mem_updateTrainable _ _ _ _ _ hl
    rw [hcon]
    exact h.2 l0 hl0 (hkind ▸ hk)

/-- One critic optimizer update establishes the clipping of every conv
kernel, whatever the previous weight values were: every layer is updated
(the critic's snapshot is all-trainable) and the constraint is applied. -/
theorem convClipped_c_train (sys : GanSystem) (d : Nat → LayerDelta) (h : CriticWF sys) :
    ConvClipped (c_train_on_batch sys d).cLayers := by
  intro l hl hk x hx
  have hC : (c_train_on_batch sys d).cLayers =
      updateTrainable sys.criticSnapshot d 0 sys.cLayers := rfl
  rw [hC, List.mem_iff_get] at hl
  obtain ⟨⟨k, hk2⟩, rfl⟩ := hl
  have hlen : k < sys.cLayers.length := by
    have hup := updateTrainable_length sys.criticSnapshot d 0 sys.cLayers
    omega
  have hget := updateTrainable_get sys.criticSnapshot d sys.cLayers 0 k hlen hk2
  have hsnap : sys.criticSnapshot.getD (0 + k) false = true := by
    rw [h.1, Nat.zero_add]
    exact getD_replicate_of_lt _ _ hlen
  rw [hsnap, if_pos rfl] at hget
  have hl0mem : sys.cLayers.get ⟨k, hlen⟩ ∈ sys.cLayers := List.get_mem _ _ _
  rw [hget] at hk hx
  have hk0 : (sys.cLayers.get ⟨k, hlen⟩).kind = LayerKind.conv2D := by
    rw [← updateLayer_kind (sys.cLayers.get ⟨k, hlen⟩) (d (0 + k))]
    exact hk
  have hcon : (sys.cLayers.get ⟨k, hlen⟩).kernelConstraint = some (5/1000) :=
    h.2 _ hl0mem hk0
  have hx2 : x ∈ applyConstraint (sys.cLayers.get ⟨k, hlen⟩).kernelConstraint
      (List.zipWith (fun a b => a + b) (sys.cLayers.get ⟨k, hlen⟩).kernel
        (d (0 + k)).dKernel) := hx
  rw [hcon] at hx2
  simp only [applyConstraint] at hx2
  exact call_bounds _ _ (by norm_num) x hx2

/-- `define_wgan` leaves every non-`BatchNormalization` critic layer with
`trainable = false`. -/
theorem define_wgan_nonBN_frozen (gLayers cLayers : List Layer) (cSnap : List Bool) :
    ∀ l ∈ (define_wgan gLayers cLayers cSnap).cLayers,
      l.kind ≠ LayerKind.batchNorm → l.trainable = false := by
  intro l hl hk
  simp only [define_wgan, List.mem_map] at hl
  obtain ⟨l0, -, rfl⟩ := hl
  by_cases hb : l0.kind = LayerKind.batchNorm
  · rw [if_pos hb] at hk ⊢
    exact absurd hb hk
  · rw [if_neg hb]

theorem buildSystem_criticWF (cInit gInit : Nat → List ℚ × List ℚ) :
    CriticWF (buildSystem cInit gInit) := by
  constructor
  · rfl
  · intro l hl hk
    simp only [buildSystem, define_wgan, define_critic, List.mem_map, List.mem_cons,
      List.not_mem_nil, or_false] at hl
    obtain ⟨l0, hl0, rfl⟩ := hl
    rcases hl0 with rfl | rfl | rfl | rfl | rfl | rfl | rfl | rfl | rfl | rfl | rfl | rfl | rfl | rfl <;>
      simp_all [mkConvC, mkBN, mkLReLU, mkFlatten, mkDense]

/-- C8: in the composite model built by `define_wgan`, every critic layer
that is not a normalization layer is marked non-trainable; a generator
optimizer update through the composite therefore leaves the parameters of
every non-normalization critic layer unchanged, while normalization layers
keep their previous trainable flag (the layer is left untouched). -/
theorem composite_freezes_critic (gLayers cLayers : List Layer) (cSnap : List Bool) :
    (∀ l ∈ (define_wgan gLayers cLayers cSnap).cLayers,
      l.kind ≠ LayerKind.batchNorm → l.trainable = false) ∧
    (∀ (dg dc : Nat → LayerDelta) (k : Nat)
      (h1 : k < (define_wgan gLayers cLayers cSnap).cLayers.length)
      (h2 : k < (gan_train_on_batch (define_wgan gLayers cLayers cSnap) dg dc).cLayers.length),
      ((define_wgan gLayers cLayers cSnap).cLayers.get ⟨k, h1⟩).kind ≠ LayerKind.batchNorm →
        (gan_train_on_batch (define_wgan gLayers cLayers cSnap) dg dc).cLayers.get ⟨k, h2⟩ =
          (define_wgan gLayers cLayers cSnap).cLayers.get ⟨k, h1⟩) ∧
    (∀ (k : Nat) (h : k < cLayers.length)
      (h3 : k < (define_wgan gLayers cLayers cSnap).cLayers.length),
      (cLayers.get ⟨k, h⟩).kind = LayerKind.batchNorm →
        (define_wgan gLayers cLayers cSnap).cLayers.get ⟨k, h3⟩ = cLayers.get ⟨k, h⟩) := by
  refine ⟨define_wgan_nonBN_frozen gLayers cLayers cSnap, ?_, ?_⟩
  · intro dg dc k h1 h2 hk
    have hget := updateTrainable_get (define_wgan gLayers cLayers cSnap).ganSnapshotC dc
      (define_wgan gLayers cLayers cSnap).cLayers 0 k h1 h2
    have hflag : (define_wgan gLayers cLayers cSnap).ganSnapshotC.getD (0 + k) false = false := by
      show ((define_wgan gLayers cLayers cSnap).cLayers.map (fun l => l.trainable)).getD (0 + k)
        false = false
      rw [Nat.zero_add, List.getD_eq_getElem _ _ (by simpa using h1), List.getElem_map]
      have := define_wgan_nonBN_frozen gLayers cLayers cSnap
        ((define_wgan gLayers cLayers cSnap).cLayers.get ⟨k, h1⟩) (List.get_mem _ _ _) hk
      simpa using this
    rw [hflag] at hget
    simpa using hget
  · intro k h h3 hk
    have h4 : k < (cLayers.map (fun l => if l.kind = LayerKind.batchNorm then l
        else { l with trainable := false })).length := by simpa using h
    have hmap : (cLayers.map (fun l => if l.kind = LayerKind.batchNorm then l
        else { l with trainable := false })).get ⟨k, h4⟩ = cLayers.get ⟨k, h⟩ := by
      simp only [List.get_eq_getElem] at hk ⊢
      simp only [List.getElem_map]
      rw [if_pos hk]
    exact hmap

/-- Witness for C8: the built critic's first layer (a `Conv2D`) is frozen in
the composite and untouched by a composite update. -/
theorem composite_freezes_critic_witness :
    ((define_wgan (define_generator zeroInit) (define_critic cexInit).1
        (define_critic cexInit).2).cLayers.get ⟨0, by decide⟩).kind ≠ LayerKind.batchNorm ∧
    (gan_train_on_batch
        (define_wgan (define_generator zeroInit) (define_critic cexInit).1
          (define_critic cexInit).2)
        (fun _ => ⟨[1], [1]⟩) (fun _ => ⟨[1], [1]⟩)).cLayers.get ⟨0, by decide⟩ =
      (define_wgan (define_generator zeroInit) (define_critic cexInit).1
        (define_critic cexInit).2).cLayers.get ⟨0, by decide⟩ :=
  ⟨by decide,
   (composite_freezes_critic (define_generator zeroInit) (define_critic cexInit).1
      (define_critic cexInit).2).2.1 (fun _ => ⟨[1], [1]⟩) (fun _ => ⟨[1], [1]⟩) 0
      (by decide) (by decide) (by decide)⟩

/-- C10: `define_wgan` mutates the shared critic layer storage in place —
after `buildSystem`, every non-`BatchNormalization` critic layer has
`trainable = false` — yet the critic's own compiled snapshot (captured inside
`define_critic`, before the mutation) still regards all 14 layers as
trainable, so a critic `train_on_batch` still updates every layer. -/
theorem define_wgan_mutates_compiled_critic (cInit gInit : Nat → List ℚ × List ℚ) :
    (buildSystem cInit gInit).criticSnapshot = List.replicate 14 true ∧
    (∀ l ∈ (buildSystem cInit gInit).cLayers,
      l.kind ≠ LayerKind.batchNorm → l.trainable = false) ∧
    (∀ (d : Nat → LayerDelta) (k : Nat)
      (h1 : k < (buildSystem cInit gInit).cLayers.length)
      (h2 : k < (c_train_on_batch (buildSystem cInit gInit) d).cLayers.length),
      (c_train_on_batch (buildSystem cInit gInit) d).cLayers.get ⟨k, h2⟩ =
        updateLayer ((buildSystem cInit gInit).cLayers.get ⟨k, h1⟩) (d k)) := by
  refine ⟨rfl, define_wgan_nonBN_frozen _ _ _, ?_⟩
  intro d k h1 h2
  have hget := updateTrainable_get (buildSystem cInit gInit).criticSnapshot d
    (buildSystem cInit gInit).cLayers 0 k h1 h2
  have hlen : (buildSystem cInit gInit).cLayers.length = 14 := by
    simp [buildSystem, define_wgan, define_critic]
  have hsnap : (buildSystem cInit gInit).criticSnapshot.getD (0 + k) false = true := by
    show (List.replicate 14 true).getD (0 + k) false = true
    rw [Nat.zero_add]
    exact getD_replicate_of_lt _ _ (by omega)
  rw [hsnap, if_pos rfl] at hget
  rw [Nat.zero_add] at hget
  exact hget

/-- Witness for C10: the first critic layer is frozen for the composite, yet
a critic update on it still goes through. -/
theorem define_wgan_mutates_compiled_critic_witness :
    (c_train_on_batch (buildSystem cexInit zeroInit) (fun _ => ⟨[1], [1]⟩)).cLayers.get
        ⟨0, by decide⟩ =
      updateLayer ((buildSystem cexInit zeroInit).cLayers.get ⟨0, by decide⟩) ⟨[1], [1]⟩ :=
  (define_wgan_mutates_compiled_critic cexInit zeroInit).2.2 (fun _ => ⟨[1], [1]⟩) 0
    (by decide) (by decide)

/-! ### The clipping invariant through the training loop -/

/-- Every critic-layer snapshot recorded so far has clipped conv kernels. -/
def SubOk (st : TrainState) : Prop := ∀ ls ∈ st.subWorlds, ConvClipped ls

theorem criticIter_inv (cfg : Config) (B : Backend) (i j : Nat)
    (acc : TrainState × List ℚ × List ℚ) (h1 : CriticWF acc.1.sys) (h2 : SubOk acc.1) :
    CriticWF (criticIter cfg B i j acc).1.sys ∧ SubOk (criticIter cfg B i j acc).1 := by
  have hW1 : CriticWF (c_train_on_batch acc.1.sys (B.cRealDelta i j)) :=
    criticWF_c_train _ _ h1
  have hW2 : CriticWF (c_train_on_batch (c_train_on_batch acc.1.sys (B.cRealDelta i j))
      (B.cFakeDelta i j)) := criticWF_c_train _ _ hW1
  refine ⟨hW2, ?_⟩
  have hsub : (criticIter cfg B i j acc).1.subWorlds =
      (acc.1.subWorlds ++ [(c_train_on_batch acc.1.sys (B.cRealDelta i j)).cLayers]) ++
        [(c_train_on_batch (c_train_on_batch acc.1.sys (B.cRealDelta i j))
          (B.cFakeDelta i j)).cLayers] := rfl
  intro ls hls
  rw [hsub] at hls
  simp only [List.mem_append, List.mem_singleton] at hls
  rcases hls with (hls | rfl) | rfl
  · exact h2 ls hls
  · exact convClipped_c_train _ _ h1
  · exact convClipped_c_train _ _ hW1

theorem criticFold_inv (cfg : Config) (B : Backend) (i : Nat) :
    ∀ (js : List Nat) (acc : TrainState × List ℚ × List ℚ),
      CriticWF acc.1.sys → SubOk acc.1 →
      CriticWF ((js.foldl (fun a j => criticIter cfg B i j a) acc)).1.sys ∧
      SubOk ((js.foldl (fun a j => criticIter cfg B i j a) acc)).1 := by
  intro js
  induction js with
  | nil => intro acc h1 h2; exact ⟨h1, h2⟩
  | cons j t ih =>
    intro acc h1 h2
    have hstep := criticIter_inv cfg B i j acc h1 h2
    exact ih _ hstep.1 hstep.2

/-! ### Characterization of one training step and of the loop -/

theorem generate_latent_points_length (L n : Nat) (src : Nat → ℚ) :
    (generate_latent_points L n src).length = n := by
  simp [generate_latent_points]

theorem criticIter_spec (cfg : Config) (B : Backend) (i j : Nat)
    (acc : TrainState × List ℚ × List ℚ) :
    (criticIter cfg B i j acc).1.events = acc.1.events ++
      [Event.creal (cfg.n_batch / 2), Event.cfake (cfg.n_batch / 2)] ∧
    (criticIter cfg B i j acc).1.c1_hist = acc.1.c1_hist ∧
    (criticIter cfg B i j acc).1.c2_hist = acc.1.c2_hist ∧
    (criticIter cfg B i j acc).1.g_hist = acc.1.g_hist ∧
    (criticIter cfg B i j acc).2.1 = acc.2.1 ++ [B.cRealLoss i j] ∧
    (criticIter cfg B i j acc).2.2 = acc.2.2 ++ [B.cFakeLoss i j] := by
  refine ⟨?_, rfl, rfl, rfl, rfl, rfl⟩
  show (acc.1.events ++
      [Event.creal (generate_real_samples cfg.dataset (cfg.n_batch / 2)
        (B.realSrc i j)).1.length]) ++
    [Event.cfake (generate_fake_samples
      (B.predict (c_train_on_batch acc.1.sys (B.cRealDelta i j)).gLayers)
      cfg.latent_dim (cfg.n_batch / 2) (B.latentSrc i j)).1.length] = _
  rw [generate_real_samples_length, generate_fake_samples_length, List.append_assoc]
  rfl

theorem criticFold_spec (cfg : Config) (B : Backend) (i : Nat) :
    ∀ (n : Nat) (acc : TrainState × List ℚ × List ℚ),
      ((List.range n).foldl (fun a j => criticIter cfg B i j a) acc).1.events =
        acc.1.events ++
          (List.replicate n [Event.creal (cfg.n_batch / 2),
            Event.cfake (cfg.n_batch / 2)]).flatten ∧
      ((List.range n).foldl (fun a j => criticIter cfg B i j a) acc).1.c1_hist =
        acc.1.c1_hist ∧
      ((List.range n).foldl (fun a j => criticIter cfg B i j a) acc).1.c2_hist =
        acc.1.c2_hist ∧
      ((List.range n).foldl (fun a j => criticIter cfg B i j a) acc).1.g_hist =
        acc.1.g_hist ∧
      ((List.range n).foldl (fun a j => criticIter cfg B i j a) acc).2.1 =
        acc.2.1 ++ (List.range n).map (B.cRealLoss i) ∧
      ((List.range n).foldl (fun a j => criticIter cfg B i j a) acc).2.2 =
        acc.2.2 ++ (List.range n).map (B.cFakeLoss i) := by
  intro n
  induction n with
  | zero => intro acc; simp
  | succ n ih =>
    intro acc
    have hr : List.range (n + 1) = List.range n ++ [n] := by simp [List.range_succ]
    rw [hr, List.foldl_append]
    simp only [List.foldl_cons, List.foldl_nil]
    obtain ⟨h1, h2, h3, h4, h5, h6⟩ := ih acc
    obtain ⟨g1, g2, g3, g4, g5, g6⟩ := criticIter_spec cfg B i n
      ((List.range n).foldl (fun a j => criticIter cfg B i j a) acc)
    refine ⟨?_, ?_, ?_, ?_, ?_, ?_⟩
    · rw [g1, h1, List.replicate_succ', List.flatten_append, List.append_assoc]
      simp
    · rw [g2, h2]
    · rw [g3, h3]
    · rw [g4, h4]
    · rw [g5, h5, List.map_append, List.append_assoc]
      rfl
    · rw [g6, h6, List.map_append, List.append_assoc]
      rfl

theorem criticPhase_spec (cfg : Config) (B : Backend) (i : Nat) (st : TrainState) :
    (criticPhase cfg B i st).1.events = st.events ++
      (List.replicate cfg.n_critic [Event.creal (cfg.n_batch / 2),
        Event.cfake (cfg.n_batch / 2)]).flatten ∧
    (criticPhase cfg B i st).1.c1_hist = st.c1_hist ∧
    (criticPhase cfg B i st).1.c2_hist = st.c2_hist ∧
    (criticPhase cfg B i st).1.g_hist = st.g_hist ∧
    (criticPhase cfg B i st).2.1 = (List.range cfg.n_critic).map (B.cRealLoss i) ∧
    (criticPhase cfg B i st).2.2 = (List.range cfg.n_critic).map (B.cFakeLoss i) := by
  have h := criticFold_spec cfg B i cfg.n_critic (st, [], [])
  simpa [criticPhase] using h

theorem trainStep_spec (cfg : Config) (B : Backend) (i : Nat) (st st' : TrainState)
    (h : trainStep cfg B i st = .ok st') :
    st'.events = st.events ++
      ((List.replicate cfg.n_critic [Event.creal (cfg.n_batch / 2),
          Event.cfake (cfg.n_batch / 2)]).flatten ++
        [Event.gupd cfg.n_batch (List.replicate cfg.n_batch [(-1 : ℚ)])] ++
        (if ((i + 1) % (cfg.dataset.length / cfg.n_batch) == 0) = true
          then [Event.chkpt i] else [])) ∧
    st'.c1_hist = st.c1_hist ++ [mean ((List.range cfg.n_critic).map (B.cRealLoss i))] ∧
    st'.c2_hist = st.c2_hist ++ [mean ((List.range cfg.n_critic).map (B.cFakeLoss i))] ∧
    st'.g_hist = st.g_hist ++ [B.ganLoss i] ∧
    (((i + 1) % (cfg.dataset.length / cfg.n_batch) == 0) = true → B.sinkOk i = true) ∧
    st'.sys = gan_train_on_batch (criticPhase cfg B i st).1.sys
      (B.ganDeltaG i) (B.ganDeltaC i) ∧
    st'.subWorlds = (criticPhase cfg B i st).1.subWorlds := by
  obtain ⟨p1, p2, p3, p4, p5, p6⟩ := criticPhase_spec cfg B i st
  simp only [trainStep] at h
  by_cases hcond : ((i + 1) % (cfg.dataset.length / cfg.n_batch) == 0) = true
  · rw [if_pos hcond] at h
    by_cases hs : B.sinkOk i = true
    · simp only [summarize_performance, hs, if_true] at h
      rw [Except.ok.injEq] at h
      subst h
      refine ⟨?_, ?_, ?_, ?g1, fun _ => hs, rfl, rfl⟩
      case g1 =>
        show (criticPhase cfg B i st).1.g_hist ++ [B.ganLoss i] = _
        rw [p4]
      · show ((criticPhase cfg B i st).1.events ++
          [Event.gupd (generate_latent_points cfg.latent_dim cfg.n_batch
            (B.ganSrc i)).length (List.replicate cfg.n_batch [(-1 : ℚ)])]) ++
          [Event.chkpt i] = _
        rw [generate_latent_points_length, p1, if_pos hcond]
        simp [List.append_assoc]
      · show (criticPhase cfg B i st).1.c1_hist ++ [mean (criticPhase cfg B i st).2.1] = _
        rw [p2, p5]
      · show (criticPhase cfg B i st).1.c2_hist ++ [mean (criticPhase cfg B i st).2.2] = _
        rw [p3, p6]
    · simp only [summarize_performance, hs, if_false, Bool.false_eq_true] at h
      exact absurd h (by simp)
  · rw [if_neg hcond] at h
    rw [Except.ok.injEq] at h
    subst h
    refine ⟨?_, ?_, ?_, ?g2, fun hc => absurd hc hcond, rfl, rfl⟩
    case g2 =>
      show (criticPhase cfg B i st).1.g_hist ++ [B.ganLoss i] = _
      rw [p4]
    · show (criticPhase cfg B i st).1.events ++
        [Event.gupd (generate_latent_points cfg.latent_dim cfg.n_batch
          (B.ganSrc i)).length (List.replicate cfg.n_batch [(-1 : ℚ)])] = _
      rw [generate_latent_points_length, p1, if_neg hcond]
      simp [List.append_assoc]
    · show (criticPhase cfg B i st).1.c1_hist ++ [mean (criticPhase cfg B i st).2.1] = _
      rw [p2, p5]
    · show (criticPhase cfg B i st).1.c2_hist ++ [mean (criticPhase cfg B i st).2.2] = _
      rw [p3, p6]

theorem trainStep_inv (cfg : Config) (B : Backend) (i : Nat) (st st' : TrainState)
    (h1 : CriticWF st.sys) (h2 : SubOk st) (h : trainStep cfg B i st = .ok st') :
    CriticWF st'.sys ∧ SubOk st' := by
  have hp : CriticWF (criticPhase cfg B i st).1.sys ∧ SubOk (criticPhase cfg B i st).1 :=
    criticFold_inv cfg B i (List.range cfg.n_critic) (st, [], []) h1 h2
  obtain ⟨-, -, -, -, -, hsys, hsub⟩ := trainStep_spec cfg B i st st' h
  constructor
  · rw [hsys]
    exact criticWF_gan_train _ _ _ hp.1
  · intro ls hls
    rw [hsub] at hls
    exact hp.2 ls hls

theorem trainLoop_inv (cfg : Config) (B : Backend) :
    ∀ (f i : Nat) (st st' : TrainState), CriticWF st.sys → SubOk st →
      trainLoop cfg B f i st = .ok st' → CriticWF st'.sys ∧ SubOk st' := by
  intro f
  induction f with
  | zero =>
    intro i st st' h1 h2 h
    simp only [trainLoop, Except.ok.injEq] at h
    subst h
    exact ⟨h1, h2⟩
  | succ f ih =>
    intro i st st' h1 h2 h
    simp only [trainLoop] at h
    cases hstep : trainStep cfg B i st with
    | error e => rw [hstep] at h; exact absurd h (by simp)
    | ok st1 =>
      rw [hstep] at h
      have hmid := trainStep_inv cfg B i st st1 h1 h2 hstep
      exact ih (i + 1) st1 st' hmid.1 hmid.2 h

/-- C1 (amended): for every run of the training loop, the critic state
recorded immediately after each critic optimizer sub-step has every kernel
parameter of every `Conv2D` layer — the layers carrying the
`ClipConstraint` — inside `[-c, c]` with `c = 0.005`.  (The `Dense` layer's
parameters, the biases and the `BatchNormalization` parameters carry no
constraint: see the counterexample.) -/
theorem critic_substep_conv_kernels_clipped (cfg : Config) (B : Backend)
    (cInit gInit : Nat → List ℚ × List ℚ) :
    ∀ ls ∈ runSubWorlds (train cfg B (buildSystem cInit gInit)),
      ∀ l ∈ ls, l.kind = LayerKind.conv2D →
        ∀ x ∈ l.kernel, -(5/1000 : ℚ) ≤ x ∧ x ≤ (5/1000 : ℚ) := by
  intro ls hls
  cases htr : train cfg B (buildSystem cInit gInit) with
  | error e => rw [htr] at hls; simp [runSubWorlds] at hls
  | ok st' =>
    rw [htr] at hls
    simp only [runSubWorlds] at hls
    have htr2 : trainLoop cfg B ((cfg.dataset.length / cfg.n_batch) * cfg.n_epochs) 0
        (initState (buildSystem cInit gInit)) = .ok st' := htr
    have hinv := trainLoop_inv cfg B _ 0 (initState (buildSystem cInit gInit)) st'
      (buildSystem_criticWF cInit gInit) (fun ls hl => absurd hl (by simp [initState])) htr2
    exact hinv.2 ls hls

/-- Initial parameters that give the first conv layer a one-element
kernel. -/
def wInit : Nat → List ℚ × List ℚ := fun k => if k = 0 then ([0], []) else ([], [])

/-- A backend whose critic updates add `1` to the first conv layer's
kernel. -/
def bkW : Backend :=
  { zeroBackend with cRealDelta := fun _ _ li => if li = 0 then ⟨[1], []⟩ else zeroDelta }

/-- The head of a nonempty list is a member. -/
theorem getD_zero_mem {α : Type} (l : List α) (d : α) (h : 0 < l.length) :
    l.getD 0 d ∈ l := by
  cases l with
  | nil => exact absurd h (by simp)
  | cons a t => exact List.mem_cons_self a t

/-- Element `k` of a long-enough list is a member. -/
theorem getD_mem_of_lt {α : Type} : ∀ (l : List α) (k : Nat) (d : α), k < l.length →
    l.getD k d ∈ l := by
  intro l
  induction l with
  | nil => intro k d h; exact absurd h (by simp)
  | cons a t ih =>
    intro k d h
    cases k with
    | zero => exact List.mem_cons_self a t
    | succ k =>
      exact List.mem_cons_of_mem a (ih k d (Nat.lt_of_succ_lt_succ h))

/-- The critic state after the first sub-step of the witness run. -/
def wit_ls : List Layer :=
  (runSubWorlds (train cexConfig bkW (buildSystem wInit zeroInit))).getD 0 []

/-- Its first layer: the first `Conv2D` of the critic. -/
def wit_l : Layer := wit_ls.getD 0 mkLReLU

/-- Its single kernel entry. -/
def wit_x : ℚ := wit_l.kernel.getD 0 0

/-- Witness for C1: in a concrete run, the first conv layer's kernel entry
after the first sub-step lies in `[-0.005, 0.005]`. -/
theorem critic_substep_conv_kernels_clipped_witness :
    wit_ls ∈ runSubWorlds (train cexConfig bkW (buildSystem wInit zeroInit)) ∧
    wit_l ∈ wit_ls ∧ wit_l.kind = LayerKind.conv2D ∧ wit_x ∈ wit_l.kernel ∧
    (-(5/1000 : ℚ) ≤ wit_x ∧ wit_x ≤ (5/1000 : ℚ)) :=
  ⟨getD_zero_mem _ _ (by decide), getD_zero_mem _ _ (by decide), by decide,
   getD_zero_mem _ _ (by decide),
   critic_substep_conv_kernels_clipped cexConfig bkW wInit zeroInit wit_ls
     (getD_zero_mem _ _ (by decide)) wit_l (getD_zero_mem _ _ (by decide)) (by decide)
     wit_x (getD_zero_mem _ _ (by decide))⟩

/-- The critic state after the first sub-step of the counterexample run. -/
def cex_ls : List Layer :=
  (runSubWorlds (train cexConfig cexBackend (buildSystem cexInit zeroInit))).getD 0 []

/-- Its `Dense` layer. -/
def cex_l : Layer := cex_ls.getD 13 mkLReLU

/-- The dense kernel entry after the update: `0 + 1`, never clipped. -/
def cex_x : ℚ := cex_l.kernel.getD 0 0

/-- Counterexample to C1 as stated: in a run whose backend update adds `1`
to the `Dense` layer's kernel, the state recorded right after that critic
sub-step holds the parameter value `1`, far outside `[-0.005, 0.005]` — only
the `Conv2D` kernels are constrained. -/
theorem claim_every_critic_param_clipped_false :
    ∃ ls ∈ runSubWorlds (train cexConfig cexBackend (buildSystem cexInit zeroInit)),
      ∃ l ∈ ls, ∃ x ∈ l.kernel, ¬(-(5/1000 : ℚ) ≤ x ∧ x ≤ (5/1000 : ℚ)) := by
  refine ⟨cex_ls, getD_zero_mem _ _ (by decide), cex_l, getD_mem_of_lt _ 13 _ (by decide),
    cex_x, getD_zero_mem _ _ (by decide), ?_⟩
  rw [show cex_x = 0 + 1 from rfl]
  norm_num

/-! ### Shifting lemmas for ranges -/

theorem map_range_succ_shift {α : Type} (g : Nat → α) (f i : Nat) :
    (List.range (f + 1)).map (fun k => g (i + k)) =
      g i :: (List.range f).map (fun k => g (i + 1 + k)) := by
  have h0 : List.range (f + 1) = 0 :: (List.range f).map (fun k => k + 1) := by
    have h1 := List.range_succ_eq_map f
    simpa [Nat.succ_eq_add_one] using h1
  rw [h0]
  simp only [List.map_cons, List.map_map, Nat.add_zero]
  refine congrArg _ ?_
  apply List.map_congr_left
  intro a ha
  simp only [Function.comp_apply]
  congr 1
  omega

theorem range_succ_shift (f i : Nat) :
    (List.range (f + 1)).map (fun k => i + k) =
      i :: (List.range f).map (fun k => i + 1 + k) :=
  map_range_succ_shift (fun x => x) f i

theorem chkpts_append (l1 l2 : List Event) :
    chkpts (l1 ++ l2) = chkpts l1 ++ chkpts l2 := by
  simp [chkpts, List.filterMap_append]

theorem chkpts_pattern (n a b : Nat) :
    chkpts ((List.replicate n [Event.creal a, Event.cfake b]).flatten) = [] := by
  induction n with
  | zero => rfl
  | succ n ih =>
    rw [List.replicate_succ, List.flatten_cons, chkpts_append, ih]
    rfl

/-! ### Characterization of the full loop -/

theorem trainLoop_spec (cfg : Config) (B : Backend) :
    ∀ (f i : Nat) (st st' : TrainState), trainLoop cfg B f i st = .ok st' →
      st'.c1_hist = st.c1_hist ++ (List.range f).map
        (fun k => mean ((List.range cfg.n_critic).map (B.cRealLoss (i + k)))) ∧
      st'.c2_hist = st.c2_hist ++ (List.range f).map
        (fun k => mean ((List.range cfg.n_critic).map (B.cFakeLoss (i + k)))) ∧
      st'.g_hist = st.g_hist ++ (List.range f).map (fun k => B.ganLoss (i + k)) ∧
      chkpts st'.events = chkpts st.events ++
        ((List.range f).map (fun k => i + k)).filter
          (fun s => (s + 1) % (cfg.dataset.length / cfg.n_batch) == 0) ∧
      (∀ k, k < f → ((i + k + 1) % (cfg.dataset.length / cfg.n_batch) == 0) = true →
        B.sinkOk (i + k) = true) := by
  intro f
  induction f with
  | zero =>
    intro i st st' h
    simp only [trainLoop, Except.ok.injEq] at h
    subst h
    simp
  | succ f ih =>
    intro i st st' h
    simp only [trainLoop] at h
    cases hstep : trainStep cfg B i st with
    | error e => rw [hstep] at h; exact absurd h (by simp)
    | ok st1 =>
      rw [hstep] at h
      obtain ⟨e1, c1, c2, g1, sOk, -, -⟩ := trainStep_spec cfg B i st st1 hstep
      obtain ⟨i1, i2, i3, i4, i5⟩ := ih (i + 1) st1 st' h
      refine ⟨?_, ?_, ?_, ?_, ?_⟩
      · rw [i1, c1, map_range_succ_shift
          (fun n => mean ((List.range cfg.n_critic).map (B.cRealLoss n))) f i,
          List.append_assoc]
        rfl
      · rw [i2, c2, map_range_succ_shift
          (fun n => mean ((List.range cfg.n_critic).map (B.cFakeLoss n))) f i,
          List.append_assoc]
        rfl
      · rw [i3, g1, map_range_succ_shift B.ganLoss f i, List.append_assoc]
        rfl
      · rw [i4, e1, chkpts_append, chkpts_append, chkpts_append, chkpts_pattern,
          range_succ_shift, List.filter_cons]
        by_cases hcond : ((i + 1) % (cfg.dataset.length / cfg.n_batch) == 0) = true
        · rw [if_pos hcond]
          simp only [hcond, if_true]
          simp [chkpts, List.append_assoc]
        · rw [if_neg hcond]
          simp only [hcond]
          simp [chkpts, List.append_assoc, Bool.false_eq_true]
      · intro k hk hc
        cases k with
        | zero =>
          have hc0 : ((i + 1) % (cfg.dataset.length / cfg.n_batch) == 0) = true := by
            simpa using hc
          simpa using sOk hc0
        | succ k =>
          have harith : i + (k + 1) = (i + 1) + k := by omega
          rw [harith] at hc ⊢
          exact i5 k (Nat.lt_of_succ_lt_succ hk) hc

theorem trainLoop_add (cfg : Config) (B : Backend) :
    ∀ (a b i : Nat) (st : TrainState),
      trainLoop cfg B (a + b) i st =
        match trainLoop cfg B a i st with
        | .ok st1 => trainLoop cfg B b (i + a) st1
        | .error e => .error e := by
  intro a
  induction a with
  | zero =>
    intro b i st
    simp [trainLoop]
  | succ a ih =>
    intro b i st
    have hsum : a + 1 + b = (a + b) + 1 := by omega
    rw [hsum]
    simp only [trainLoop]
    cases hstep : trainStep cfg B i st with
    | error e => rfl
    | ok st1 =>
      dsimp only
      rw [ih b (i + 1) st1]
      have hsum2 : i + 1 + a = i + (a + 1) := by omega
      rw [hsum2]

theorem exists_ok_of_exceptOk {ε α : Type} (e : Except ε α) (h : exceptOk e = true) :
    ∃ a, e = .ok a := by
  cases e with
  | ok a => exact ⟨a, rfl⟩
  | error e => simp [exceptOk] at h

/-- C5: every training step performs, in order, `n_critic` repetitions of
(one critic optimizer update on a real half-batch of size `n_batch/2`, then
one critic optimizer update on a fake half-batch of size `n_batch/2` — the
weight constraint being applied inside each update), followed by exactly one
composite (generator) optimizer update on a latent batch of size `n_batch`
whose labels are all `-1` (and, on an epoch boundary, the checkpoint). -/
theorem training_step_cadence (cfg : Config) (B : Backend) (i : Nat)
    (st st' : TrainState) (h : trainStep cfg B i st = .ok st') :
    st'.events = st.events ++
      ((List.replicate cfg.n_critic [Event.creal (cfg.n_batch / 2),
          Event.cfake (cfg.n_batch / 2)]).flatten ++
        [Event.gupd cfg.n_batch (List.replicate cfg.n_batch [(-1 : ℚ)])] ++
        (if ((i + 1) % (cfg.dataset.length / cfg.n_batch) == 0) = true
          then [Event.chkpt i] else [])) :=
  (trainStep_spec cfg B i st st' h).1

/-- Witness for C5: the single step of the tiny concrete run produces one
(real, fake) critic-update pair of half-batch size 1, one generator update of
batch size 2 with all-`-1` labels, and the epoch-boundary checkpoint. -/
theorem training_step_cadence_witness :
    ∃ st', trainStep cexConfig zeroBackend 0
        (initState (buildSystem zeroInit zeroInit)) = .ok st' ∧
      st'.events = (initState (buildSystem zeroInit zeroInit)).events ++
        ((List.replicate cexConfig.n_critic [Event.creal (cexConfig.n_batch / 2),
            Event.cfake (cexConfig.n_batch / 2)]).flatten ++
          [Event.gupd cexConfig.n_batch (List.replicate cexConfig.n_batch [(-1 : ℚ)])] ++
          (if ((0 + 1) % (cexConfig.dataset.length / cexConfig.n_batch) == 0) = true
            then [Event.chkpt 0] else [])) := by
  obtain ⟨st', h⟩ := exists_ok_of_exceptOk
    (trainStep cexConfig zeroBackend 0 (initState (buildSystem zeroInit zeroInit)))
    (by decide)
  exact ⟨st', h, training_step_cadence cexConfig zeroBackend 0 _ st' h⟩

/-- C6: after `t` completed training steps each of the three loss histories
has length exactly `t`; each step appended exactly one value per history —
the critic entries being the means of the `n_critic` per-sub-step losses of
that step — and the histories are append-only across run prefixes. -/
theorem loss_histories_per_step (cfg : Config) (B : Backend) (sys : GanSystem)
    (t : Nat) (st' : TrainState)
    (h : trainLoop cfg B t 0 (initState sys) = .ok st') :
    st'.c1_hist = (List.range t).map
      (fun k => mean ((List.range cfg.n_critic).map (B.cRealLoss k))) ∧
    st'.c2_hist = (List.range t).map
      (fun k => mean ((List.range cfg.n_critic).map (B.cFakeLoss k))) ∧
    st'.g_hist = (List.range t).map B.ganLoss ∧
    st'.c1_hist.length = t ∧ st'.c2_hist.length = t ∧ st'.g_hist.length = t ∧
    (∀ (s : Nat) (st2 : TrainState), s ≤ t →
      trainLoop cfg B s 0 (initState sys) = .ok st2 →
      ∃ u1 u2 u3, st'.c1_hist = st2.c1_hist ++ u1 ∧ st'.c2_hist = st2.c2_hist ++ u2 ∧
        st'.g_hist = st2.g_hist ++ u3) := by
  obtain ⟨h1, h2, h3, -, -⟩ := trainLoop_spec cfg B t 0 (initState sys) st' h
  have e1 : st'.c1_hist = (List.range t).map
      (fun k => mean ((List.range cfg.n_critic).map (B.cRealLoss k))) := by
    rw [h1]; simp [initState]
  have e2 : st'.c2_hist = (List.range t).map
      (fun k => mean ((List.range cfg.n_critic).map (B.cFakeLoss k))) := by
    rw [h2]; simp [initState]
  have e3 : st'.g_hist = (List.range t).map B.ganLoss := by
    rw [h3]; simp [initState]
  refine ⟨e1, e2, e3, by rw [e1]; simp, by rw [e2]; simp, by rw [e3]; simp, ?_⟩
  intro s st2 hs hrun2
  have hadd := trainLoop_add cfg B s (t - s) 0 (initState sys)
  rw [show s + (t - s) = t from by omega, hrun2] at hadd
  simp only [Nat.zero_add] at hadd
  rw [h] at hadd
  obtain ⟨k1, k2, k3, -, -⟩ := trainLoop_spec cfg B (t - s) s st2 st' hadd.symm
  exact ⟨_, _, _, k1, k2, k3⟩

/-- Witness for C6 on a one-step concrete run. -/
theorem loss_histories_per_step_witness :
    ∃ st', trainLoop cexConfig zeroBackend 1 0
        (initState (buildSystem zeroInit zeroInit)) = .ok st' ∧
      st'.c1_hist.length = 1 ∧ st'.c2_hist.length = 1 ∧ st'.g_hist.length = 1 := by
  obtain ⟨st', h⟩ := exists_ok_of_exceptOk
    (trainLoop cexConfig zeroBackend 1 0 (initState (buildSystem zeroInit zeroInit)))
    (by decide)
  obtain ⟨-, -, -, l1, l2, l3, -⟩ :=
    loss_histories_per_step cexConfig zeroBackend (buildSystem zeroInit zeroInit) 1 st' h
  exact ⟨st', h, l1, l2, l3⟩

/-- C7: a completed run executes exactly `(N / n_batch) * n_epochs` training
steps — each loss history ends with that length — and the checkpoint fires
exactly at the steps whose one-based index is a multiple of `N / n_batch`. -/
theorem total_steps_and_checkpoint_cadence (cfg : Config) (B : Backend)
    (sys : GanSystem) (st' : TrainState) (h : train cfg B sys = .ok st') :
    st'.c1_hist.length = (cfg.dataset.length / cfg.n_batch) * cfg.n_epochs ∧
    st'.c2_hist.length = (cfg.dataset.length / cfg.n_batch) * cfg.n_epochs ∧
    st'.g_hist.length = (cfg.dataset.length / cfg.n_batch) * cfg.n_epochs ∧
    chkpts st'.events =
      (List.range ((cfg.dataset.length / cfg.n_batch) * cfg.n_epochs)).filter
        (fun s => (s + 1) % (cfg.dataset.length / cfg.n_batch) == 0) := by
  have h2 : trainLoop cfg B ((cfg.dataset.length / cfg.n_batch) * cfg.n_epochs) 0
      (initState sys) = .ok st' := h
  obtain ⟨c1, c2, g1, ck, -⟩ := trainLoop_spec cfg B
    ((cfg.dataset.length / cfg.n_batch) * cfg.n_epochs) 0 (initState sys) st' h2
  refine ⟨by rw [c1]; simp [initState], by rw [c2]; simp [initState],
    by rw [g1]; simp [initState], ?_⟩
  rw [ck]
  have hid : (List.range ((cfg.dataset.length / cfg.n_batch) * cfg.n_epochs)).map
      (fun k => 0 + k) =
      List.range ((cfg.dataset.length / cfg.n_batch) * cfg.n_epochs) := by
    simp
  rw [hid]
  simp [initState, chkpts]

/-- Witness for C7: the spec's end-to-end scenario — 100 images, batch 10,
2 critic sub-steps, 1 epoch — runs exactly 10 steps, all three loss lists end
with length 10, and exactly one checkpoint fires, at (zero-based) step 9,
i.e. one-based step 10. -/
theorem total_steps_and_checkpoint_cadence_witness :
    ∃ st', train cfg100 zeroBackend (buildSystem zeroInit zeroInit) = .ok st' ∧
      st'.c1_hist.length = 10 ∧ st'.c2_hist.length = 10 ∧ st'.g_hist.length = 10 ∧
      chkpts st'.events = [9] := by
  obtain ⟨st', h⟩ := exists_ok_of_exceptOk
    (train cfg100 zeroBackend (buildSystem zeroInit zeroInit)) (by decide)
  obtain ⟨c1, c2, g1, ck⟩ :=
    total_steps_and_checkpoint_cadence cfg100 zeroBackend (buildSystem zeroInit zeroInit) st' h
  refine ⟨st', h, ?_, ?_, ?_, ?_⟩
  · rw [c1]; decide
  · rw [c2]; decide
  · rw [g1]; decide
  · rw [ck]; decide

/-- C9 (amended): no validation happens before the loop — a dataset smaller
than the batch size yields `N / n_batch = 0` steps, so the run returns at
once, successfully, with empty histories; and a checkpoint-sink failure is
not caught: a successful run requires the sink to have succeeded at every
epoch boundary it reached (contrapositive: a sink failure aborts the run,
like any other in-loop failure). -/
theorem no_preloop_validation_checkpoint_aborts :
    (∀ (cfg : Config) (B : Backend) (sys : GanSystem),
      cfg.dataset.length < cfg.n_batch → train cfg B sys = .ok (initState sys)) ∧
    (∀ (cfg : Config) (B : Backend) (sys : GanSystem) (st' : TrainState),
      train cfg B sys = .ok st' →
      ∀ i, i < (cfg.dataset.length / cfg.n_batch) * cfg.n_epochs →
        ((i + 1) % (cfg.dataset.length / cfg.n_batch) == 0) = true →
        B.sinkOk i = true) := by
  constructor
  · intro cfg B sys hlt
    have hbpe : cfg.dataset.length / cfg.n_batch = 0 := Nat.div_eq_of_lt hlt
    show trainLoop cfg B (cfg.dataset.length / cfg.n_batch * cfg.n_epochs) 0
      (initState sys) = _
    rw [hbpe, Nat.zero_mul]
    rfl
  · intro cfg B sys st' h i hi hc
    have h2 : trainLoop cfg B ((cfg.dataset.length / cfg.n_batch) * cfg.n_epochs) 0
        (initState sys) = .ok st' := h
    obtain ⟨-, -, -, -, hs⟩ := trainLoop_spec cfg B
      ((cfg.dataset.length / cfg.n_batch) * cfg.n_epochs) 0 (initState sys) st' h2
    have hres := hs i hi (by simpa using hc)
    simpa using hres

/-- Witness for C9 (amended): the five-image dataset with batch 10 runs zero
steps and returns successfully. -/
theorem no_preloop_validation_checkpoint_aborts_witness :
    cfgSmall.dataset.length < cfgSmall.n_batch ∧
    train cfgSmall zeroBackend (buildSystem zeroInit zeroInit) =
      .ok (initState (buildSystem zeroInit zeroInit)) :=
  ⟨by decide, no_preloop_validation_checkpoint_aborts.1 cfgSmall zeroBackend
    (buildSystem zeroInit zeroInit) (by decide)⟩

/-- Counterexample to C9 as stated: (a) a dataset smaller than the batch size
is not detected — the run completes without any error; (b) a checkpoint-sink
failure is not caught and reported — it aborts the run with the failure. -/
theorem error_handling_claim_false :
    (cfgSmall.dataset.length < cfgSmall.n_batch ∧
      exceptOk (train cfgSmall zeroBackend (buildSystem zeroInit zeroInit)) = true) ∧
    train cexConfig failBackend (buildSystem zeroInit zeroInit) = .error ⟨0⟩ := by
  exact ⟨⟨by decide, by decide⟩, rfl⟩

end WGAN
